import Mathlib

/-!
Verification development for the CDP support chatbot
(`src/chatbot.py` and `src/indexer.py`).

Questions and documents are modelled as `List Char` (one entry per code
point, matching Python's per-character string indexing and `len`).
Python's `pat in s` substring test, `str.find`/`str.rfind`, slicing,
`str.lower`, `str.title`, `str.replace`, `str.split` and the handful of
regular expressions used by the chatbot are given explicit executable
models below.  The TF-IDF vectorisation itself is performed by the
external sklearn library; following the code's own structure, the
similarity vector returned by `cosine_similarity` is taken as an input
of the ranking stage (`search_rank`), and the chatbot's calls to
`DocumentIndexer.search` are modelled by an oracle of type
`Str → Except PyErr (List SearchHit)`.  `np.argsort` is modelled as a
stable ascending argsort.
-/

set_option maxRecDepth 2000000

abbrev Str := List Char

def str (s : String) : Str := s.toList

/-- Model of Python `str.lower` (ASCII range, which covers every pattern
and keyword used by the chatbot). -/
def lowerStr (s : Str) : Str := s.map Char.toLower

/-- Model of Python's substring containment test `pat in s`: `pat` is a
prefix of some suffix of `s`. -/
def subIn (pat : Str) : Str → Bool
  | [] => pat.isPrefixOf []
  | c :: rest => pat.isPrefixOf (c :: rest) || subIn pat rest

/-- Word character class of the regex `\b` boundary (`[A-Za-z0-9_]`). -/
def isWordChar (c : Char) : Bool := c.isAlphanum || c = '_'

/-- Worker for `wordBoundaryOcc`, scanning the suffixes of the text;
`prev` is the character directly before the current suffix, if any. -/
def wordBoundaryGo (pat : Str) (prev : Option Char) : Str → Bool
  | [] => false
  | c :: rest =>
    (pat.isPrefixOf (c :: rest) &&
      (match prev with | none => true | some p => !isWordChar p) &&
      (match (c :: rest).drop pat.length with
       | [] => true
       | d :: _ => !isWordChar d)) ||
    wordBoundaryGo pat (some c) rest

/-- Does the regex `\bpat\b` (pattern as a standalone word) match somewhere
in `s`?  Used for the pattern `r'\bsegment\b'` in `chatbot.py`. -/
def wordBoundaryOcc (pat s : Str) : Bool := wordBoundaryGo pat none s

/-- Does `\s+word` match at the start of the given text (one or more
whitespace characters, then `word`)? -/
def wsThen (word : Str) : Str → Bool
  | [] => false
  | c :: rest => c.isWhitespace && (word.isPrefixOf rest || wsThen word rest)

/-- Does the regex `segment\s+word` match somewhere in `s`?  Used for
`r'segment\s+cdp'` and `r'segment\s+platform'` in `chatbot.py`. -/
def segFollowedBy (word : Str) : Str → Bool
  | [] => false
  | c :: rest =>
    ((str "segment").isPrefixOf (c :: rest) && wsThen word ((c :: rest).drop 7)) ||
      segFollowedBy word rest

/-- The three strict "segment" patterns of `chatbot.py` (lines 138-142 and
211-215): `\bsegment\b`, `segment\s+cdp`, `segment\s+platform`. -/
def segStrictMatch (s : Str) : Bool :=
  wordBoundaryOcc (str "segment") s || segFollowedBy (str "cdp") s ||
    segFollowedBy (str "platform") s

/-- Does `.+post` match at the start of the given text: at least one
non-newline character, then `post`? -/
def midThenPost (post : Str) : Str → Bool
  | [] => false
  | c :: rest => decide (c ≠ '\n') && (post.isPrefixOf rest || midThenPost post rest)

/-- Does the regex `pre.+post` match somewhere in `s` (with `.` not
matching a newline, as in Python `re.search`)? -/
def dotPlusBetween (pre post : Str) : Str → Bool
  | [] => false
  | c :: rest =>
    (pre.isPrefixOf (c :: rest) && midThenPost post ((c :: rest).drop pre.length)) ||
      dotPlusBetween pre post rest

/-- Worker for `vsPattern`; `prev` is the character directly before the
current suffix, if any. -/
def vsGo (prev : Option Char) : Str → Bool
  | [] => false
  | c :: rest =>
    ((match prev with | none => false | some p => decide (p ≠ '\n')) &&
      (str " vs ").isPrefixOf (c :: rest) &&
      (match (c :: rest).drop 4 with | [] => false | d :: _ => decide (d ≠ '\n'))) ||
    vsGo (some c) rest

/-- Does the regex `.+ vs .+` match somewhere in `s`: `" vs "` with at
least one non-newline character directly before and after? -/
def vsPattern (s : Str) : Bool := vsGo none s

/-- Worker for `occPositions`; `i` is the offset of the current suffix. -/
def occPositionsGo (pat : Str) (i : Nat) : Str → List Nat
  | [] => if pat.isEmpty then [i] else []
  | c :: rest =>
    (if pat.isPrefixOf (c :: rest) then [i] else []) ++ occPositionsGo pat (i + 1) rest

/-- All positions of `s` at which `pat` occurs (in ascending order). -/
def occPositions (pat s : Str) : List Nat := occPositionsGo pat 0 s

/-- Model of Python `str.find`: position of the first occurrence. -/
def findSub (pat s : Str) : Option Nat := (occPositions pat s).head?

/-- Model of Python `str.rfind`: position of the last occurrence. -/
def rfindSub (pat s : Str) : Option Nat := (occPositions pat s).getLast?

/-- Worker for `replaceAll`: a positive first argument means that many
characters still belong to the just-replaced occurrence and are skipped. -/
def replAux (pat rep : Str) : Nat → Str → Str
  | _, [] => []
  | k + 1, _ :: rest => replAux pat rep k rest
  | 0, c :: rest =>
    if !pat.isEmpty && pat.isPrefixOf (c :: rest) then
      rep ++ replAux pat rep (pat.length - 1) rest
    else c :: replAux pat rep 0 rest

/-- Model of Python `s.replace(pat, rep)` (non-overlapping, left to
right) for a non-empty `pat`. -/
def replaceAll (pat rep s : Str) : Str := replAux pat rep 0 s

/-- Model of Python `str.strip()` (remove leading and trailing
whitespace). -/
def stripWs (s : Str) : Str :=
  ((s.dropWhile Char.isWhitespace).reverse.dropWhile Char.isWhitespace).reverse

/-- Worker for `splitOnDot`; `cur` accumulates the current piece in
reverse. -/
def splitOnDotGo (cur : Str) : Str → List Str
  | [] => [cur.reverse]
  | c :: rest =>
    if c = '.' then cur.reverse :: splitOnDotGo [] rest
    else splitOnDotGo (c :: cur) rest

/-- Model of Python `s.split('.')` (empty pieces are kept). -/
def splitOnDot (s : Str) : List Str := splitOnDotGo [] s

/-- Worker for `splitWs`; `cur` accumulates the current word in reverse. -/
def splitWsGo (cur : Str) : Str → List Str
  | [] => if cur.isEmpty then [] else [cur.reverse]
  | c :: rest =>
    if c.isWhitespace then
      if cur.isEmpty then splitWsGo [] rest
      else cur.reverse :: splitWsGo [] rest
    else splitWsGo (c :: cur) rest

/-- Model of Python `s.split()` with no argument (split on whitespace
runs, discarding empty pieces). -/
def splitWs (s : Str) : List Str := splitWsGo [] s

/-- Worker for `wordRuns`; `cur` accumulates the current run in reverse. -/
def wordRunsGo (cur : Str) : Str → List Str
  | [] => if cur.isEmpty then [] else [cur.reverse]
  | c :: rest =>
    if isWordChar c then wordRunsGo (c :: cur) rest
    else if cur.isEmpty then wordRunsGo [] rest
    else cur.reverse :: wordRunsGo [] rest

/-- Maximal runs of word characters of `s`.  The regex
`\b[a-z]{4,}\b` of `chatbot.py` line 366 matches exactly the runs that
consist of lowercase letters only and have length at least 4. -/
def wordRuns (s : Str) : List Str := wordRunsGo [] s

/-- Model of Python `re.findall(r'\b[a-z]{4,}\b', s)`. -/
def lowerWordsMin4 (s : Str) : List Str :=
  (wordRuns s).filter fun w => decide (4 ≤ w.length) && w.all fun c => decide ('a' ≤ c) && decide (c ≤ 'z')

/-- Model of Python `str.title()` (ASCII): the first letter of every
letter run is uppercased, the following letters are lowercased. -/
def titleGo (prevAlpha : Bool) : Str → Str
  | [] => []
  | c :: rest =>
    (if c.isAlpha then (if prevAlpha then c.toLower else c.toUpper) else c) ::
      titleGo c.isAlpha rest

def titleStr (s : Str) : Str := titleGo false s

/-- Decimal representation of a natural number (Python `str(i)` for the
enumeration counter in `_format_response`). -/
def natStr (n : Nat) : Str := Nat.toDigits 10 n

/-- Model of the Python slice `l[start:]`, including the negative-index
convention: a negative `start` counts from the end, clamped at 0. -/
def pySliceFrom {α : Type} (l : List α) (start : Int) : List α :=
  if 0 ≤ start then l.drop start.toNat
  else l.drop ((l.length : Int) + start).toNat

/-- Shortest-capture check for the lazy regex `(.+?)c` at offset `k`:
`s[k] = c` and the `k` captured characters are non-newline. -/
def capOK (s : Str) (endc : Char) (k : Nat) : Bool :=
  decide (0 < k) && decide (k < s.length) && decide (s.getD k ' ' = endc) &&
    ((s.take k).all fun c => decide (c ≠ '\n'))

/-- Capture of the lazy group in `(.+?)endc` at the start of `s`
(shortest match first, as Python's lazy `+?` behaves). -/
def shortestCap (endc : Char) (s : Str) : Option Str :=
  match (List.range s.length).filter (capOK s endc) with
  | [] => none
  | k :: _ => some (s.take k)

/-- Model of `re.search(pre + "(.+?)" + endc, s).group(1)`: scan for the
leftmost completable occurrence of `pre`, then capture lazily up to
`endc`. -/
def searchLazyGroup (pre : Str) (endc : Char) : Str → Option Str
  | [] => none
  | c :: rest =>
    if pre.isPrefixOf (c :: rest) then
      match shortestCap endc ((c :: rest).drop pre.length) with
      | some cap => some cap
      | none => searchLazyGroup pre endc rest
    else searchLazyGroup pre endc rest

/-- Viability check for the greedy regex `.+mid(.+)` at split point `j` of
the text after `pre`: at least one non-newline character before `mid`,
`mid` itself, and at least one non-newline character after it. -/
def greedyCapOK (s mid : Str) (j : Nat) : Bool :=
  decide (0 < j) && mid.isPrefixOf (s.drop j) &&
    ((s.take j).all fun c => decide (c ≠ '\n')) &&
    (match s.drop (j + mid.length) with | [] => false | c :: _ => decide (c ≠ '\n'))

/-- Capture of the greedy group in `.+mid(.+)` at the start of `s`: the
first `.+` is greedy, so `mid` matches at the last viable split point and
the capture extends to the end of the line. -/
def greedyCap (mid s : Str) : Option Str :=
  match ((List.range (s.length + 1)).filter (greedyCapOK s mid)).getLast? with
  | some j => some ((s.drop (j + mid.length)).takeWhile fun c => decide (c ≠ '\n'))
  | none => none

/-- Model of `re.search(pre + ".+" + mid + "(.+)", s).group(1)`. -/
def searchGreedyGroup (pre mid : Str) : Str → Option Str
  | [] => none
  | c :: rest =>
    if pre.isPrefixOf (c :: rest) then
      match greedyCap mid ((c :: rest).drop pre.length) with
      | some cap => some cap
      | none => searchGreedyGroup pre mid rest
    else searchGreedyGroup pre mid rest

/-- Join a list of strings with a separator (Python `sep.join(parts)`). -/
def joinSep (sep : Str) (parts : List Str) : Str := List.intercalate sep parts

/-!
## Model of `src/indexer.py`
-/

/-- A rational with an explicit already-reduced representation, so that
kernel evaluation never has to normalise (Python floats are modelled by
exact rationals; the claims settled here only use their ordering). -/
def qv (n : Int) (d : Nat) (h1 : d ≠ 0 := by decide)
    (h2 : n.natAbs.Coprime d := by norm_num [Nat.Coprime]) : ℚ :=
  ⟨n, d, h1, h2⟩

/-- Python exceptions that the modelled code can raise. -/
inductive PyErr where
  /-- An `AttributeError`, e.g. from accessing an attribute of `None`. -/
  | attributeError (msg : Str)
  /-- A deliberately raised `ValueError`. -/
  | valueError (msg : Str)
  /-- Any exception escaping the similarity search (vectorisation etc.). -/
  | searchFailure
deriving DecidableEq

instance {ε α : Type} [DecidableEq ε] [DecidableEq α] : DecidableEq (Except ε α) := fun a b =>
  match a, b with
  | .ok x, .ok y => if h : x = y then .isTrue (by rw [h]) else .isFalse (by simp [h])
  | .error x, .error y => if h : x = y then .isTrue (by rw [h]) else .isFalse (by simp [h])
  | .ok _, .error _ => .isFalse (by simp)
  | .error _, .ok _ => .isFalse (by simp)

/-- The similarity vector paired with document indices `0, 1, 2, ...`
(row order of the TF-IDF matrix = corpus insertion order). -/
def enumSims (i : Nat) : List ℚ → List (Nat × ℚ)
  | [] => []
  | x :: xs => (i, x) :: enumSims (i + 1) xs

/-- One step of the stable ascending insertion sort on (index, score)
pairs, comparing scores; an element is inserted after every element of
strictly smaller score and before the first element of greater-or-equal
score. -/
def insertPair (x : Nat × ℚ) : List (Nat × ℚ) → List (Nat × ℚ)
  | [] => [x]
  | y :: ys => if y.2 < x.2 then y :: insertPair x ys else x :: y :: ys

/-- Stable ascending sort on (index, score) pairs by score — the model of
`np.argsort(similarities)` in `indexer.py` line 107 (argsort output
`[i₁, i₂, ...]` is represented as `[(i₁, s[i₁]), (i₂, s[i₂]), ...]`). -/
def sortPairs : List (Nat × ℚ) → List (Nat × ℚ)
  | [] => []
  | x :: xs => insertPair x (sortPairs xs)

/-- Ranking stage of `DocumentIndexer.search` (`indexer.py` lines
104-119), operating on the similarity vector `sims` returned by
`cosine_similarity(...).flatten()`:
`top_k = min(top_k, len(similarities))`,
`top_indices = np.argsort(similarities)[-top_k:][::-1]`, then keep
`(idx, score)` for `idx` in `top_indices` with `score > 0.1`.
A returned pair `(idx, score)` stands for the result dict
`{'document': documents[idx], 'score': score}`. -/
def search_rank (sims : List ℚ) (top_k : Int) : List (Nat × ℚ) :=
  ((pySliceFrom (sortPairs (enumSims 0 sims)) (-(min top_k (sims.length : Int)))).reverse).filter
    fun p => qv 1 10 < p.2

/-- State of a `DocumentIndexer` (`indexer.py` lines 10-19): before
`load_documents` runs, `tfidf_matrix` is `None`. -/
structure IndexerState where
  documents_count : Nat
  tfidf_matrix : Option (List (List ℚ))

/-- A freshly constructed `DocumentIndexer()`. -/
def freshIndexer : IndexerState := ⟨0, none⟩

/-- Model of `DocumentIndexer.search` (`indexer.py` lines 87-119).  The
guard `if not self.tfidf_matrix.shape[0]` first evaluates
`self.tfidf_matrix.shape`; when `tfidf_matrix` is `None` this raises
`AttributeError` before the deliberate `ValueError` can be raised.  The
similarity vector `sims` abstracts the result of vectorising the
(preprocessed) query and applying `cosine_similarity`. -/
def indexer_search (st : IndexerState) (sims : List ℚ) (top_k : Int) :
    Except PyErr (List (Nat × ℚ)) :=
  match st.tfidf_matrix with
  | none => .error (.attributeError (str "'NoneType' object has no attribute 'shape'"))
  | some m =>
    if m.length = 0 then
      .error (.valueError (str "Documents not loaded. Call load_documents() first."))
    else .ok (search_rank sims top_k)

/-- The action verbs of `DocumentIndexer._preprocess_query`
(`indexer.py` line 131). -/
def query_action_verbs : List Str :=
  [str "create", str "set up", str "configure", str "integrate",
   str "connect", str "build", str "use"]

/-- Model of `DocumentIndexer._preprocess_query` (`indexer.py` lines
121-139): lowercase; if the query lacks "how to" and "how do i" but
contains an action verb, prefix it once with "how to ". -/
def preprocess_query (query : Str) : Str :=
  let p := lowerStr query
  if subIn (str "how to") p || subIn (str "how do i") p then p
  else if query_action_verbs.any (fun v => subIn v p) then str "how to " ++ p
  else p

/-!
## Model of `src/chatbot.py`
-/

/-- A document of the corpus, as consumed by `CDPChatbot`
(`_format_response` reads `content`, `url`, `cdp` and optionally
`title`; a missing or empty `title` is replaced by a default). -/
structure Doc where
  title : Option Str
  content : Str
  url : Str
  cdp : Str
deriving DecidableEq

/-- A search result dict `{'document': ..., 'score': ...}` as returned by
`DocumentIndexer.search`. -/
structure SearchHit where
  doc : Doc
  score : ℚ
deriving DecidableEq

/-- The CDP platforms supported by the chatbot (`chatbot.py` line 10). -/
def supported_cdps : List Str :=
  [str "segment", str "mparticle", str "lytics", str "zeotap"]

/-- The comparison keywords (`chatbot.py` lines 13-16). -/
def comparison_keywords : List Str :=
  [str "compare", str "comparison", str "versus", str "vs", str "difference",
   str "differences", str "better", str "best", str "prefer", str "advantage",
   str "disadvantage"]

/-- The generic segmentation phrases (`chatbot.py` lines 116-123, and the
identical list `non_comparison_phrases` at lines 163-170). -/
def segmentation_phrases : List Str :=
  [str "audience segment", str "user segment", str "customer segment",
   str "segment your audience", str "segment your users",
   str "segment your customers"]

/-- The question markers of `_truncate_question` (`chatbot.py` line 59). -/
def question_markers : List Str :=
  [str "?", str "how", str "what", str "where", str "when", str "why",
   str "who", str "which", str "can", str "could"]

/-- Worker for `truncate_question`: the loop of `chatbot.py` lines 61-68,
falling back to the last 300 characters (line 71). -/
def truncateScan (question ql : Str) : List Str → Str
  | [] => question.drop (question.length - 300)
  | m :: ms =>
    if subIn m ql then
      match rfindSub m ql with
      | some pos =>
        if question.length / 2 < pos then question.drop (pos - 50)
        else truncateScan question ql ms
      | none => truncateScan question ql ms
    else truncateScan question ql ms

/-- Model of `CDPChatbot._truncate_question` (`chatbot.py` lines 53-71).
`question.drop (pos - 50)` is the slice `question[max(0, pos-50):]`. -/
def truncate_question (question : Str) : Str :=
  truncateScan question (lowerStr question) question_markers

/-- The CDP-related keywords of `_is_cdp_related`
(`chatbot.py` lines 85-90). -/
def cdp_keywords : List Str :=
  [str "customer data platform", str "cdp", str "integration", str "source",
   str "audience", str "segment", str "profile", str "tracking",
   str "analytics", str "data collection", str "identity resolution",
   str "user profile", str "event tracking", str "api", str "webhook",
   str "destination", str "data source", str "user data"]

/-- The how-to patterns of `_is_cdp_related` (`chatbot.py` line 97). -/
def how_to_patterns : List Str :=
  [str "how to", str "how do i", str "how can i", str "steps to",
   str "guide for"]

/-- The action verbs of `_is_cdp_related` (`chatbot.py` line 98). -/
def related_action_verbs : List Str :=
  [str "create", str "set up", str "configure", str "integrate",
   str "connect", str "track", str "implement"]

/-- Model of `CDPChatbot._is_cdp_related` (`chatbot.py` lines 73-106). -/
def is_cdp_related (question : Str) : Bool :=
  let ql := lowerStr question
  supported_cdps.any (fun c => subIn c ql) ||
  cdp_keywords.any (fun k => subIn k ql) ||
  (how_to_patterns.any (fun p => subIn p ql) &&
    related_action_verbs.any (fun v => subIn v ql))

/-- The first supported CDP other than "segment" contained in the
lowercased question — the loop of `chatbot.py` lines 128-130. -/
def first_non_segment_cdp (ql : Str) : Option Str :=
  (supported_cdps.filter fun c => !(c == str "segment") && subIn c ql).head?

/-- The main loop of `_identify_cdp` (`chatbot.py` lines 133-152): for
"segment", skip when a segmentation phrase is present, otherwise match
via the strict patterns; other CDPs match by plain containment. -/
def identifyScan (ql : Str) : List Str → Option Str
  | [] => none
  | c :: cs =>
    if c == str "segment" then
      if segmentation_phrases.any (fun p => subIn p ql) then identifyScan ql cs
      else if segStrictMatch ql then some c
      else identifyScan ql cs
    else if subIn c ql then some c
    else identifyScan ql cs

/-- Model of `CDPChatbot._identify_cdp` (`chatbot.py` lines 108-154). -/
def identify_cdp (question : Str) : Option Str :=
  let ql := lowerStr question
  if segmentation_phrases.any (fun p => subIn p ql) then
    match first_non_segment_cdp ql with
    | some c => some c
    | none => identifyScan ql supported_cdps
  else identifyScan ql supported_cdps

/-- The explicit comparison keywords that override the segmentation-phrase
short circuit (`chatbot.py` line 177). -/
def explicit_comparison_keywords : List Str :=
  [str "compare", str "versus", str "vs", str "difference between"]

/-- The comparison sentence patterns of `_is_comparison_question`
(`chatbot.py` lines 191-197). -/
def comparison_pattern_match (ql : Str) : Bool :=
  dotPlusBetween (str "how does ") (str " compare to") ql ||
  dotPlusBetween (str "difference between ") (str " and") ql ||
  dotPlusBetween (str "which is better ") (str " or") ql ||
  subIn (str "which cdp is better") ql ||
  vsPattern ql

/-- The mentioned-CDP count of `_is_comparison_question` (`chatbot.py`
lines 206-222): "segment" counts only via the strict patterns, the other
CDPs by plain containment. -/
def mentioned_cdps_strict (ql : Str) : List Str :=
  supported_cdps.filter fun c =>
    if c == str "segment" then segStrictMatch ql else subIn c ql

/-- Model of `CDPChatbot._is_comparison_question` (`chatbot.py` lines
156-227).  The first branch models the loop of lines 173-183: when some
segmentation phrase is contained and no explicit comparison keyword is,
the function returns false. -/
def is_comparison_question (question : Str) : Bool :=
  let ql := lowerStr question
  if segmentation_phrases.any (fun p => subIn p ql) &&
     !(explicit_comparison_keywords.any fun k => subIn k ql) then false
  else if comparison_keywords.any (fun k => subIn k ql) then true
  else if comparison_pattern_match ql then true
  else decide (2 ≤ (mentioned_cdps_strict ql).length)

/-- The second-CDP inference patterns of `_handle_comparison_question`
(`chatbot.py` lines 244-251), instantiated for a given `c`. -/
def infer_patterns (c ql : Str) : Bool :=
  subIn (str "difference between " ++ c ++ str " and") ql ||
  dotPlusBetween (str "difference between ") (str " and " ++ c) ql ||
  subIn (c ++ str " vs") ql ||
  subIn (str "vs " ++ c) ql ||
  dotPlusBetween (str "compare ") (str " to " ++ c) ql ||
  subIn (str "compare " ++ c ++ str " to") ql

/-- The entity-selection stage of `_handle_comparison_question`
(`chatbot.py` lines 233-265): plainly mentioned CDPs, then
pattern-inferred ones, then padding from the first remaining supported
CDPs, finally truncated to exactly two. -/
def select_comparison_cdps (ql : Str) : List Str :=
  let mentioned := supported_cdps.filter fun c => subIn c ql
  let mentioned :=
    if mentioned.length < 2 then
      let withInferred := mentioned ++
        (supported_cdps.filter fun c => !mentioned.contains c && infer_patterns c ql)
      if withInferred.length < 2 then
        withInferred ++
          (supported_cdps.filter fun c => !withInferred.contains c).take (2 - withInferred.length)
      else withInferred
    else mentioned
  mentioned.take 2

/-- The CDP feature vocabulary of `_extract_comparison_features`
(`chatbot.py` lines 323-329). -/
def comparison_features_list : List Str :=
  [str "audience creation", str "audience segmentation", str "data collection",
   str "integration", str "identity resolution", str "user profiles",
   str "event tracking", str "api", str "performance", str "pricing",
   str "ease of use", str "implementation", str "data sources",
   str "destinations", str "connectors", str "sdks", str "security",
   str "compliance", str "data governance", str "reporting", str "analytics"]

/-- The stop words of `_extract_comparison_features`
(`chatbot.py` line 369). -/
def feature_stop_words : List Str :=
  [str "what", str "which", str "when", str "where", str "there",
   str "their", str "about", str "would", str "should", str "could",
   str "between"]

/-- The regex-template stage of `_extract_comparison_features`
(`chatbot.py` lines 342-355), in dict insertion order. -/
def extract_from_patterns (ql : Str) : Option Str :=
  if subIn (str "difference between") ql then some (str "general capabilities")
  else match searchLazyGroup (str "which is better for ") '?' ql with
  | some g => some (stripWs g)
  | none =>
    match searchGreedyGroup (str "compare ") (str " for ") ql with
    | some g => some (stripWs g)
    | none =>
      match searchGreedyGroup (str "how do ") (str " compare in ") ql with
      | some g => some (stripWs g)
      | none => none

/-- The fallback stage of `_extract_comparison_features` (`chatbot.py`
lines 357-374): strip CDP names and comparison keywords, look for
4+-letter lowercase words, filter stop words. -/
def extract_fallback (ql : Str) : Str :=
  let cleaned := supported_cdps.foldl (fun s c => replaceAll c [] s) ql
  let cleaned := comparison_keywords.foldl (fun s k => replaceAll k [] s) cleaned
  let words := lowerWordsMin4 cleaned
  if !words.isEmpty then
    let filtered := words.filter fun w => !feature_stop_words.contains w
    if !filtered.isEmpty then str "data integration and capabilities"
    else str "features and capabilities"
  else str "features and capabilities"

/-- Model of `CDPChatbot._extract_comparison_features` (`chatbot.py`
lines 316-374). -/
def extract_comparison_features (question : Str) : Str :=
  let ql := lowerStr question
  let found := comparison_features_list.filter fun f => subIn f ql
  if !found.isEmpty then joinSep (str ", ") found
  else
    match extract_from_patterns ql with
    | some f => f
    | none => extract_fallback ql

/-- An entry of the pre-defined comparison table of
`_generate_difference_point` (`chatbot.py` lines 382-393). -/
structure DiffEntry where
  c1 : Str
  c2 : Str
  feat : Str
  text : Str

/-- Model of `CDPChatbot._generate_difference_point` (`chatbot.py` lines
376-403).  The table values interpolate the *arguments* `cdp1`/`cdp2`
(not the key entries), exactly as the Python f-strings do; when the
argument order is reversed relative to the key, the value is patched by
the `replace`-via-"TEMP" dance of line 399. -/
def generate_difference_point (cdp1 cdp2 feature : Str) : Str :=
  let t1 := titleStr cdp1
  let t2 := titleStr cdp2
  let entries : List DiffEntry :=
    [⟨str "segment", str "mparticle", str "audience",
      t1 ++ str " focuses on data collection and routing, while " ++ t2 ++
        str " has more advanced audience segmentation capabilities."⟩,
     ⟨str "segment", str "mparticle", str "integration",
      t1 ++ str " has a wider range of integrations, while " ++ t2 ++
        str " offers deeper mobile-specific integrations."⟩,
     ⟨str "segment", str "lytics", str "audience",
      t1 ++ str " requires more technical setup, while " ++ t2 ++
        str " offers more marketer-friendly audience creation tools."⟩,
     ⟨str "mparticle", str "lytics", str "audience",
      t1 ++ str " excels in mobile data collection, while " ++ t2 ++
        str " focuses on content affinity and predictive modeling."⟩,
     ⟨str "zeotap", str "segment", str "identity",
      t1 ++ str " has stronger identity resolution capabilities, while " ++ t2 ++
        str " offers more flexible data routing options."⟩,
     ⟨str "zeotap", str "mparticle", str "general",
      t1 ++ str " specializes in cross-channel identity resolution and data unification, while " ++
        t2 ++ str " excels in mobile data collection and offers a more developer-friendly interface."⟩,
     ⟨str "zeotap", str "mparticle", str "integration",
      t1 ++ str " uses a connection-based approach with detailed data mapping, while " ++ t2 ++
        str " offers a more streamlined integration process through their dashboard."⟩,
     ⟨str "zeotap", str "mparticle", str "identity",
      t1 ++ str " provides more robust identity resolution rules for cross-channel data, while " ++
        t2 ++ str " focuses on creating comprehensive user profiles with automatic event association."⟩,
     ⟨str "zeotap", str "mparticle", str "features",
      t1 ++ str " is better suited for enterprises with complex data environments, while " ++ t2 ++
        str " is stronger for companies with significant mobile presence."⟩,
     ⟨str "zeotap", str "mparticle", str "capabilities",
      t1 ++ str " offers more detailed configuration options for data connections, while " ++ t2 ++
        str " provides a simpler interface for basic data collection needs."⟩]
  match entries.find? (fun e =>
      ((cdp1 == e.c1 && cdp2 == e.c2) || (cdp1 == e.c2 && cdp2 == e.c1)) &&
      (subIn e.feat feature || e.feat == str "general" || e.feat == str "features" ||
        e.feat == str "capabilities")) with
  | some e =>
    if !(cdp1 == e.c1) then
      replaceAll (str "TEMP") (titleStr e.c2)
        (replaceAll (titleStr e.c2) (titleStr e.c1)
          (replaceAll (titleStr e.c1) (str "TEMP") e.text))
    else e.text
  | none =>
    t1 ++ str " and " ++ t2 ++ str " have different approaches to " ++ feature ++
      str ", with each offering unique advantages depending on your specific use case."

/-- One per-CDP block of the comparison response (`chatbot.py` lines
285-304), including the sentence-filtering content truncation. -/
def format_comparison_entry (features cdp : Str) (d : Doc) : Str :=
  let content := d.content
  let content :=
    if 300 < content.length then
      let sentences := splitOnDot content
      let relevant := sentences.filter fun sent =>
        (splitWs features).any fun w => subIn w (lowerStr sent)
      if !relevant.isEmpty then joinSep (str ". ") (relevant.take 3) ++ str "."
      else content.take 300 ++ str "..."
    else content
  str "**" ++ titleStr cdp ++ str "**:\n" ++ content ++ str "\n\n"

/-- The search loop of `_handle_comparison_question` (`chatbot.py` lines
271-277): one `indexer.search` call per selected CDP, keeping the best
hit of each; an exception from `search` propagates (there is no handler
inside `_handle_comparison_question`). -/
def gather_comparison_results (oracle : Str → Except PyErr (List SearchHit))
    (features : Str) : List Str → Except PyErr (List (Str × SearchHit))
  | [] => .ok []
  | c :: cs =>
    match oracle (features ++ str " in " ++ c) with
    | .error e => .error e
    | .ok results =>
      match gather_comparison_results oracle features cs with
      | .error e => .error e
      | .ok rest =>
        match results with
        | [] => .ok rest
        | r :: _ => .ok ((c, r) :: rest)

/-- Model of `CDPChatbot._handle_comparison_question` (`chatbot.py`
lines 229-314). -/
def handle_comparison_question (oracle : Str → Except PyErr (List SearchHit))
    (question : Str) : Except PyErr Str :=
  let ql := lowerStr question
  let mentioned := select_comparison_cdps ql
  let features := extract_comparison_features question
  match gather_comparison_results oracle features mentioned with
  | .error e => .error e
  | .ok allResults =>
    if allResults.isEmpty then
      .ok (str "I don't have enough information to compare " ++
        joinSep (str " and ") mentioned ++ str " regarding " ++ features ++
        str ". Could you please ask a more specific question?")
    else
      let response := str "Here's a comparison of " ++ features ++ str " between " ++
        joinSep (str " and ") mentioned ++ str ":\n\n"
      let response := response ++
        (allResults.map fun p => format_comparison_entry features p.1 p.2.doc).foldl
          (fun acc s => acc ++ s) []
      let response := response ++ str "**Key Differences**:\n"
      let response := response ++
        (match allResults with
         | a :: b :: _ => str "- " ++ generate_difference_point a.1 b.1 features ++ str "\n"
         | _ => [])
      .ok (response ++
        str "\nNote: This comparison is based on the available documentation. For more detailed comparisons, you may want to consult each platform's full documentation.")

/-- The step indicators of `_format_response` (`chatbot.py` line 427). -/
def step_indicators : List Str :=
  [str "Step 1", str "1.", str "First", str "To begin", str "Start by"]

/-- The for-else loop of `_format_response` (`chatbot.py` lines 429-438):
truncate at the first step indicator found, else plainly at 800. -/
def truncateAtIndicator (content : Str) : List Str → Str
  | [] => content.take 800 ++ str "..."
  | ind :: inds =>
    match findSub ind content with
    | some pos => (content.drop pos).take 800 ++ str "..."
    | none => truncateAtIndicator content inds

/-- The additional-resources lines of `_format_response` (`chatbot.py`
lines 448-451), enumerating from 1. -/
def extraResources (i : Nat) : List SearchHit → Str
  | [] => []
  | r :: rest =>
    let t := match r.doc.title with
      | some t => if t.isEmpty then str "Additional resource" else t
      | none => str "Additional resource"
    natStr i ++ str ". " ++ t ++ str ": " ++ r.doc.url ++ str "\n" ++
      extraResources (i + 1) rest

/-- Model of `CDPChatbot._format_response` (`chatbot.py` lines 405-453). -/
def format_response (results : List SearchHit) (cdp : Option Str) : Str :=
  match results with
  | [] => str "I couldn't find specific information about that. Could you please rephrase your question?"
  | best :: rest =>
    let bestDoc := best.doc
    let cdpName :=
      match cdp with
      | none => bestDoc.cdp
      | some c => if c.isEmpty then bestDoc.cdp else c
    let content := bestDoc.content
    let content := if 800 < content.length then truncateAtIndicator content step_indicators else content
    let response := str "Here's how to do that in " ++ titleStr cdpName ++ str ":\n\n" ++
      content ++ str "\n\n" ++ str "Source: " ++ bestDoc.url
    if rest.isEmpty then response
    else response ++ str "\n\nYou might also find these resources helpful:\n" ++
      extraResources 1 (rest.take 2)

/-- The refusal message of `answer_question` (`chatbot.py` line 28). -/
def refusal_message : Str :=
  str "I'm a CDP Support chatbot. I can only answer questions related to Customer Data Platforms (CDPs) like Segment, mParticle, Lytics, or Zeotap. Please ask me how to perform specific tasks within these platforms."

/-- The apology message of `answer_question` (`chatbot.py` line 51). -/
def apology_message : Str :=
  str "I'm having trouble processing that question. Could you please try rephrasing it or asking about a different topic?"

/-- The no-results message of `answer_question` (`chatbot.py` line 42,
with the supported-CDP list joined by ", "). -/
def no_results_message : Str :=
  str "I couldn't find specific information about that. Could you please rephrase your question? Try asking how to perform a specific task in segment, mparticle, lytics, zeotap."

/-- The stages of `answer_question` after the length check (`chatbot.py`
lines 26-51).  An `oracle` value models `self.indexer.search`: called on
the question, it either returns the hit list or raises.  The
`try`/`except` of lines 38-51 wraps only this single-entity search path;
the comparison branch (line 32) is outside it. -/
def answer_core (oracle : Str → Except PyErr (List SearchHit)) (question : Str) :
    Except PyErr Str :=
  if !is_cdp_related question then .ok refusal_message
  else if is_comparison_question question then handle_comparison_question oracle question
  else
    let cdp := identify_cdp question
    match oracle question with
    | .ok results =>
      if results.isEmpty then .ok no_results_message
      else .ok (format_response results cdp)
    | .error _ => .ok apology_message

/-- The length guard of `answer_question` (`chatbot.py` lines 22-24). -/
def effective_question (question : Str) : Str :=
  if 500 < question.length then truncate_question question else question

/-- Model of `CDPChatbot.answer_question` (`chatbot.py` lines 18-51). -/
def answer_question (oracle : Str → Except PyErr (List SearchHit)) (question : Str) :
    Except PyErr Str :=
  answer_core oracle (effective_question question)

/-!
## Concrete inputs and oracles used by witnesses and counterexamples
-/

/-- An index oracle that finds nothing for any query. -/
def oracle_empty : Str → Except PyErr (List SearchHit) := fun _ => .ok []

/-- An index oracle that raises on every query (any exception during
vectorisation or similarity computation). -/
def oracle_fail : Str → Except PyErr (List SearchHit) := fun _ => .error .searchFailure

/-- A run of `n` filler characters. -/
def xRun (n : Nat) : Str := List.replicate n 'x'

/-- A 903-character question whose single "?" sits at position 452: the
first truncation keeps the suffix from position 402 (length 501, still
over the 500-character limit) which contains " segment ", while a second
truncation of that suffix keeps only its last 300 filler characters. -/
def long_question : Str := xRun 405 ++ str " segment " ++ xRun 38 ++ str "?" ++ xRun 450

/-- A 502-character question whose truncation (length 51) is within the
500-character limit. -/
def medium_question : Str := xRun 501 ++ str "?"

/-!
## Ranking lemmas (for claims about `search`)
-/

theorem insertPair_length (x : Nat × ℚ) : ∀ l : List (Nat × ℚ),
    (insertPair x l).length = l.length + 1
  | [] => rfl
  | y :: ys => by
    unfold insertPair
    split
    · simp [insertPair_length x ys]
    · simp

theorem mem_insertPair {z x : Nat × ℚ} : ∀ {l : List (Nat × ℚ)},
    z ∈ insertPair x l → z = x ∨ z ∈ l := by
  intro l
  induction l with
  | nil => intro h; simp [insertPair] at h; exact Or.inl h
  | cons y ys ih =>
    unfold insertPair
    split
    · intro h
      rcases List.mem_cons.1 h with rfl | h
      · exact Or.inr (List.mem_cons_self _ _)
      · rcases ih h with rfl | h
        · exact Or.inl rfl
        · exact Or.inr (List.mem_cons_of_mem _ h)
    · intro h
      rcases List.mem_cons.1 h with rfl | h
      · exact Or.inl rfl
      · exact Or.inr h

theorem pairwise_insertPair {x : Nat × ℚ} : ∀ {l : List (Nat × ℚ)},
    List.Pairwise (fun a b : Nat × ℚ => a.2 < b.2 ∨ (a.2 = b.2 ∧ a.1 < b.1)) l →
    (∀ y ∈ l, x.1 < y.1) →
    List.Pairwise (fun a b : Nat × ℚ => a.2 < b.2 ∨ (a.2 = b.2 ∧ a.1 < b.1)) (insertPair x l) := by
  intro l
  induction l with
  | nil => intro _ _; simp [insertPair]
  | cons y ys ih =>
    intro hl hx
    have hy := List.pairwise_cons.1 hl
    unfold insertPair
    split
    case isTrue h =>
      refine List.pairwise_cons.2 ⟨?_, ih hy.2 (fun z hz => hx z (List.mem_cons_of_mem _ hz))⟩
      intro z hz
      rcases mem_insertPair hz with rfl | hz
      · exact Or.inl h
      · exact hy.1 z hz
    case isFalse h =>
      have hxy : x.2 ≤ y.2 := not_lt.1 h
      refine List.pairwise_cons.2 ⟨?_, hl⟩
      intro z hz
      rcases List.mem_cons.1 hz with rfl | hz
      · rcases lt_or_eq_of_le hxy with hlt | heq
        · exact Or.inl hlt
        · exact Or.inr ⟨heq, hx z (List.mem_cons_self _ _)⟩
      · rcases hy.1 z hz with hlt | ⟨heq, _⟩
        · exact Or.inl (lt_of_le_of_lt hxy hlt)
        · have hxz : x.2 ≤ z.2 := heq ▸ hxy
          rcases lt_or_eq_of_le hxz with hlt | heq2
          · exact Or.inl hlt
          · exact Or.inr ⟨heq2, hx z (List.mem_cons_of_mem _ hz)⟩

theorem sortPairs_length : ∀ l : List (Nat × ℚ), (sortPairs l).length = l.length
  | [] => rfl
  | x :: xs => by rw [sortPairs, insertPair_length, sortPairs_length xs, List.length_cons]

theorem mem_sortPairs {z : Nat × ℚ} : ∀ {l : List (Nat × ℚ)}, z ∈ sortPairs l → z ∈ l
  | [], h => by simp [sortPairs] at h
  | x :: xs, h => by
    rw [sortPairs] at h
    rcases mem_insertPair h with rfl | h
    · exact List.mem_cons_self _ _
    · exact List.mem_cons_of_mem _ (mem_sortPairs h)

theorem pairwise_sortPairs : ∀ {l : List (Nat × ℚ)},
    List.Pairwise (fun a b : Nat × ℚ => a.1 < b.1) l →
    List.Pairwise (fun a b : Nat × ℚ => a.2 < b.2 ∨ (a.2 = b.2 ∧ a.1 < b.1)) (sortPairs l)
  | [], _ => by simp [sortPairs]
  | x :: xs, h => by
    have h' := List.pairwise_cons.1 h
    rw [sortPairs]
    exact pairwise_insertPair (pairwise_sortPairs h'.2)
      (fun y hy => h'.1 y (mem_sortPairs hy))

theorem enumSims_length : ∀ (i : Nat) (l : List ℚ), (enumSims i l).length = l.length
  | _, [] => rfl
  | i, x :: xs => by rw [enumSims, List.length_cons, enumSims_length (i + 1) xs, List.length_cons]

theorem mem_enumSims_fst : ∀ (i : Nat) (l : List ℚ) (p : Nat × ℚ), p ∈ enumSims i l → i ≤ p.1
  | i, [], p, h => by simp [enumSims] at h
  | i, x :: xs, p, h => by
    rw [enumSims] at h
    rcases List.mem_cons.1 h with rfl | h
    · exact le_refl i
    · exact le_trans (Nat.le_succ i) (mem_enumSims_fst (i + 1) xs p h)

theorem pairwise_enumSims : ∀ (i : Nat) (l : List ℚ),
    List.Pairwise (fun a b : Nat × ℚ => a.1 < b.1) (enumSims i l)
  | _, [] => by simp [enumSims]
  | i, x :: xs => by
    rw [enumSims]
    refine List.pairwise_cons.2 ⟨?_, pairwise_enumSims (i + 1) xs⟩
    intro y hy
    have := mem_enumSims_fst (i + 1) xs y hy
    show i < y.1
    omega

theorem pySlice_bound {α : Type} (l : List α) (k n : Int) (hk : 1 ≤ k)
    (hn : (l.length : Int) = n) :
    (pySliceFrom l (-(min k n))).length ≤ k.toNat ∧
    (pySliceFrom l (-(min k n))).length ≤ l.length := by
  unfold pySliceFrom
  split <;> (rw [List.length_drop]; omega)

theorem pySliceFrom_eq_drop {α : Type} (l : List α) (s : Int) :
    ∃ m, pySliceFrom l s = l.drop m := by
  unfold pySliceFrom
  split
  · exact ⟨s.toNat, rfl⟩
  · exact ⟨((l.length : Int) + s).toNat, rfl⟩

theorem search_rank_pairwise_lex (sims : List ℚ) (k : Int) :
    List.Pairwise (fun a b : Nat × ℚ => b.2 < a.2 ∨ (b.2 = a.2 ∧ b.1 < a.1))
      (search_rank sims k) := by
  unfold search_rank
  apply List.Pairwise.sublist (List.filter_sublist _)
  rw [List.pairwise_reverse]
  obtain ⟨m, hm⟩ := pySliceFrom_eq_drop (sortPairs (enumSims 0 sims))
    (-(min k (sims.length : Int)))
  rw [hm]
  exact List.Pairwise.sublist (List.drop_sublist _ _)
    (pairwise_sortPairs (pairwise_enumSims 0 sims))

theorem search_rank_length_le (sims : List ℚ) (k : Int) (hk : 1 ≤ k) :
    (search_rank sims k).length ≤ k.toNat ∧
    (search_rank sims k).length ≤ sims.length := by
  have hlen : ((sortPairs (enumSims 0 sims)).length : Int) = (sims.length : Int) := by
    rw [sortPairs_length, enumSims_length]
  have hb := pySlice_bound (sortPairs (enumSims 0 sims)) k (sims.length : Int) hk hlen
  have hfil : (search_rank sims k).length ≤
      (pySliceFrom (sortPairs (enumSims 0 sims)) (-(min k (sims.length : Int)))).length := by
    unfold search_rank
    exact le_trans (List.length_filter_le _ _) (le_of_eq (List.length_reverse _))
  refine ⟨le_trans hfil hb.1, le_trans hfil (le_trans hb.2 ?_)⟩
  rw [sortPairs_length, enumSims_length]

theorem search_rank_scores {sims : List ℚ} {k : Int} {p : Nat × ℚ}
    (hp : p ∈ search_rank sims k) : qv 1 10 < p.2 := by
  unfold search_rank at hp
  exact of_decide_eq_true (List.mem_filter.1 hp).2

/-!
## String lemmas (lowercasing, substrings, truncation)
-/

theorem toNat_ofNat_valid (n : Nat) (h : Nat.isValidChar n) : (Char.ofNat n).toNat = n := by
  rw [Char.ofNat, dif_pos h]; rfl

theorem toLower_toLower (c : Char) : c.toLower.toLower = c.toLower := by
  unfold Char.toLower
  by_cases h : c.toNat ≥ 65 ∧ c.toNat ≤ 90
  · rw [if_pos h]
    have ht : (Char.ofNat (c.toNat + 32)).toNat = c.toNat + 32 :=
      toNat_ofNat_valid _ (Or.inl (by omega))
    rw [if_neg (by omega)]
  · rw [if_neg h, if_neg h]

theorem lowerStr_idem (s : Str) : lowerStr (lowerStr s) = lowerStr s := by
  induction s with
  | nil => rfl
  | cons c cs ih =>
    simp only [lowerStr, List.map_cons] at ih ⊢
    rw [toLower_toLower]
    exact congrArg _ ih

theorem lowerStr_drop (s : Str) (k : Nat) : lowerStr (s.drop k) = (lowerStr s).drop k :=
  List.map_drop _ _ _

theorem subIn_of_suffix {pat s' s : Str} (h : s' <:+ s) (hp : subIn pat s' = true) :
    subIn pat s = true := by
  induction s with
  | nil =>
    rw [List.suffix_nil.1 h] at hp
    exact hp
  | cons c rest ih =>
    rcases List.suffix_cons_iff.1 h with rfl | h'
    · exact hp
    · rw [subIn]
      exact Bool.or_eq_true_iff.2 (Or.inr (ih h'))

theorem subIn_drop {pat s : Str} (k : Nat) (hp : subIn pat (s.drop k) = true) :
    subIn pat s = true :=
  subIn_of_suffix (List.drop_suffix k s) hp

theorem truncateScan_eq_drop (question ql : Str) : ∀ ms : List Str,
    ∃ k, truncateScan question ql ms = question.drop k
  | [] => ⟨question.length - 300, rfl⟩
  | m :: ms => by
    rw [truncateScan]
    split
    · split
      · split
        · exact ⟨_, rfl⟩
        · exact truncateScan_eq_drop question ql ms
      · exact truncateScan_eq_drop question ql ms
    · exact truncateScan_eq_drop question ql ms

theorem truncate_eq_drop (question : Str) : ∃ k, truncate_question question = question.drop k :=
  truncateScan_eq_drop question (lowerStr question) question_markers

theorem effective_eq_drop (q : Str) : ∃ k, effective_question q = q.drop k := by
  unfold effective_question
  split
  · exact truncate_eq_drop q
  · exact ⟨0, (List.drop_zero q).symm⟩

theorem subIn_drop_false {pat q : Str} (k : Nat) (h : subIn pat (lowerStr q) = false) :
    subIn pat (lowerStr (q.drop k)) = false := by
  rw [lowerStr_drop]
  by_contra hc
  rw [Bool.not_eq_false] at hc
  rw [subIn_drop k hc] at h
  cases h

theorem is_cdp_related_drop_false (q : Str) (k : Nat)
    (h1 : supported_cdps.all (fun c => !subIn c (lowerStr q)) = true)
    (h2 : cdp_keywords.all (fun c => !subIn c (lowerStr q)) = true)
    (h3 : (how_to_patterns.any (fun p => subIn p (lowerStr q)) &&
           related_action_verbs.any (fun v => subIn v (lowerStr q))) = false) :
    is_cdp_related (q.drop k) = false := by
  rw [List.all_eq_true] at h1 h2
  simp only [Bool.not_eq_true'] at h1 h2
  unfold is_cdp_related
  have g1 : (supported_cdps.any fun c => subIn c (lowerStr (q.drop k))) = false := by
    rw [List.any_eq_false]
    intro c hc
    rw [subIn_drop_false k (h1 c hc)]
    simp
  have g2 : (cdp_keywords.any fun c => subIn c (lowerStr (q.drop k))) = false := by
    rw [List.any_eq_false]
    intro c hc
    rw [subIn_drop_false k (h2 c hc)]
    simp
  have g3 : (how_to_patterns.any (fun p => subIn p (lowerStr (q.drop k))) &&
      related_action_verbs.any (fun v => subIn v (lowerStr (q.drop k)))) = false := by
    rcases Bool.and_eq_false_iff.1 h3 with h | h
    · refine Bool.and_eq_false_iff.2 (Or.inl ?_)
      rw [List.any_eq_false] at h ⊢
      intro p hp
      have := h p hp
      rw [Bool.not_eq_true] at this ⊢
      exact subIn_drop_false k this
    · refine Bool.and_eq_false_iff.2 (Or.inr ?_)
      rw [List.any_eq_false] at h ⊢
      intro p hp
      have := h p hp
      rw [Bool.not_eq_true] at this ⊢
      exact subIn_drop_false k this
  show (((supported_cdps.any fun c => subIn c (lowerStr (q.drop k))) ||
      cdp_keywords.any fun c => subIn c (lowerStr (q.drop k))) ||
      (how_to_patterns.any (fun p => subIn p (lowerStr (q.drop k))) &&
        related_action_verbs.any fun v => subIn v (lowerStr (q.drop k)))) = false
  rw [g1, g2, g3]
  rfl

/-!
## Claims
-/

/-- C7: for every question that contains none of the four supported
entity names, none of the fixed domain keywords, and no how-to pattern
combined with an action verb, `answer_question` returns the fixed
refusal message verbatim and performs no search (the result does not
depend on the `oracle` at all). -/
theorem c7_out_of_domain_refusal (oracle : Str → Except PyErr (List SearchHit)) (q : Str)
    (h1 : supported_cdps.all (fun c => !subIn c (lowerStr q)) = true)
    (h2 : cdp_keywords.all (fun c => !subIn c (lowerStr q)) = true)
    (h3 : (how_to_patterns.any (fun p => subIn p (lowerStr q)) &&
           related_action_verbs.any (fun v => subIn v (lowerStr q))) = false) :
    answer_question oracle q = .ok refusal_message := by
  obtain ⟨k, hk⟩ := effective_eq_drop q
  unfold answer_question
  rw [hk]
  unfold answer_core
  rw [is_cdp_related_drop_false q k h1 h2 h3]
  rfl

/-- Witness for C7 at the concrete question "What is the weather today"
(hypotheses discharged by evaluation). -/
theorem c7_out_of_domain_refusal_witness :
    (supported_cdps.all fun c => !subIn c (lowerStr (str "What is the weather today"))) = true ∧
    (cdp_keywords.all fun c => !subIn c (lowerStr (str "What is the weather today"))) = true ∧
    answer_question oracle_empty (str "What is the weather today") = .ok refusal_message :=
  ⟨by decide, by decide,
    c7_out_of_domain_refusal oracle_empty _ (by decide) (by decide) (by decide)⟩

/-- C9: query preprocessing is idempotent on any query already containing
"how to" (in its lowercased form), and in general applies at most one
rewrite: the result is either the lowercased query or the lowercased
query with a single "how to " prefix. -/
theorem c9_preprocess_query_idem (x : Str) :
    (subIn (str "how to") (lowerStr x) = true →
      preprocess_query (preprocess_query x) = preprocess_query x) ∧
    (preprocess_query x = lowerStr x ∨ preprocess_query x = str "how to " ++ lowerStr x) := by
  constructor
  · intro h
    have e1 : preprocess_query x = lowerStr x := by
      simp only [preprocess_query, h, Bool.true_or, if_true]
    rw [e1]
    simp only [preprocess_query, lowerStr_idem, h, Bool.true_or, if_true]
  · simp only [preprocess_query]
    split
    · exact Or.inl rfl
    · split
      · exact Or.inr rfl
      · exact Or.inl rfl

/-- Witness for C9 at the concrete query "how to Connect data"
(hypothesis discharged by evaluation). -/
theorem c9_preprocess_query_idem_witness :
    subIn (str "how to") (lowerStr (str "how to Connect data")) = true ∧
    preprocess_query (preprocess_query (str "how to Connect data")) =
      preprocess_query (str "how to Connect data") :=
  ⟨by decide, (c9_preprocess_query_idem (str "how to Connect data")).1 (by decide)⟩

/-- C6: for every question containing a generic "X segment" phrase and
none of the explicit comparison keywords "compare", "versus", "vs",
"difference between", comparison detection returns false — regardless of
broader comparison keywords, comparison sentence patterns, or multiple
mentioned entities. -/
theorem c6_segment_phrase_not_comparison (q : Str)
    (h1 : segmentation_phrases.any (fun p => subIn p (lowerStr q)) = true)
    (h2 : explicit_comparison_keywords.all (fun k => !subIn k (lowerStr q)) = true) :
    is_comparison_question q = false := by
  have h2' : (explicit_comparison_keywords.any fun k => subIn k (lowerStr q)) = false := by
    rw [List.any_eq_false]
    intro c hc
    rw [List.all_eq_true] at h2
    have := h2 c hc
    rw [Bool.not_eq_true'] at this
    simp [this]
  simp [is_comparison_question, h1, h2']

/-- Witness for C6 at the concrete question
"Which is better for creating an audience segment, or the best segment?"
— a question full of broader comparison keywords ("better", "best"), a
comparison sentence pattern ("which is better ... or") and a strict
"segment" match, which is still classified as not-a-comparison. -/
theorem c6_segment_phrase_not_comparison_witness :
    (segmentation_phrases.any fun p =>
      subIn p (lowerStr (str "Which is better for creating an audience segment, or the best segment?"))) = true ∧
    (comparison_keywords.any fun k =>
      subIn k (lowerStr (str "Which is better for creating an audience segment, or the best segment?"))) = true ∧
    is_comparison_question (str "Which is better for creating an audience segment, or the best segment?") = false :=
  ⟨by decide, by decide,
    c6_segment_phrase_not_comparison _ (by decide) (by decide)⟩

/-- C3 (amended): whenever the question contains a generic segmentation
phrase, `identify_cdp` returns the first supported entity other than
"segment" contained in the question, and `none` when there is no such
entity — the entity "segment" is suppressed unconditionally in this
case, whether or not one of the strict patterns matches.  In particular
"How do I create an audience segment?" yields no identified entity. -/
theorem c3_segment_suppressed (q : Str)
    (h : segmentation_phrases.any (fun p => subIn p (lowerStr q)) = true) :
    identify_cdp q = first_non_segment_cdp (lowerStr q) := by
  unfold identify_cdp
  rw [if_pos h]
  cases hfn : first_non_segment_cdp (lowerStr q) with
  | some c => rfl
  | none =>
    have hfe : (supported_cdps.filter fun c =>
        !(c == str "segment") && subIn c (lowerStr q)) = [] := by
      unfold first_non_segment_cdp at hfn
      exact List.head?_eq_none_iff.1 hfn
    rw [List.filter_eq_nil_iff] at hfe
    have hm : subIn (str "mparticle") (lowerStr q) = false := by
      have := hfe (str "mparticle") (by simp [supported_cdps])
      simp at this
      exact this (by decide)
    have hl : subIn (str "lytics") (lowerStr q) = false := by
      have := hfe (str "lytics") (by simp [supported_cdps])
      simp at this
      exact this (by decide)
    have hz : subIn (str "zeotap") (lowerStr q) = false := by
      have := hfe (str "zeotap") (by simp [supported_cdps])
      simp at this
      exact this (by decide)
    show identifyScan (lowerStr q) supported_cdps = none
    unfold supported_cdps
    rw [identifyScan, if_pos (by decide : ((str "segment" == str "segment") = true)), if_pos h,
        identifyScan, if_neg (by decide), if_neg (by rw [hm]; exact Bool.false_ne_true),
        identifyScan, if_neg (by decide), if_neg (by rw [hl]; exact Bool.false_ne_true),
        identifyScan, if_neg (by decide), if_neg (by rw [hz]; exact Bool.false_ne_true),
        identifyScan]

/-- Counterexample for C3 as stated: in
"create an audience segment on the segment platform" the entity
"segment" matches both strict patterns (standalone word boundary and
"segment platform"), a segmentation phrase is present and no other
entity is named; the claim therefore demands that "segment" be
identified, but `identify_cdp` returns `none`. -/
theorem c3_counterexample :
    segStrictMatch (lowerStr (str "create an audience segment on the segment platform")) = true ∧
    (segmentation_phrases.any fun p =>
      subIn p (lowerStr (str "create an audience segment on the segment platform"))) = true ∧
    (∀ c ∈ supported_cdps, c ≠ str "segment" →
      subIn c (lowerStr (str "create an audience segment on the segment platform")) = false) ∧
    identify_cdp (str "create an audience segment on the segment platform") = none := by
  refine ⟨by decide, by decide, by decide, by decide⟩

/-- Witness for C3 (amended) at the concrete question
"How do I create an audience segment?" (hypothesis discharged by
evaluation; the conclusion evaluates to `none`). -/
theorem c3_segment_suppressed_witness :
    (segmentation_phrases.any fun p =>
      subIn p (lowerStr (str "How do I create an audience segment?"))) = true ∧
    identify_cdp (str "How do I create an audience segment?") = none :=
  ⟨by decide, (c3_segment_suppressed _ (by decide)).trans (by decide)⟩

/-- C8: for every comparison question in which exactly one supported
entity is named (plain substring containment, as the comparison handler
itself tests) and no second entity is inferable from the explicit
comparison patterns, the comparison handler's entity selection still
yields exactly two entities: the named one followed by the first
remaining supported entity in the fixed order.  Being a total function,
the selection in particular raises no exception. -/
theorem c8_comparison_two_entities (q e : Str)
    (_hcomp : is_comparison_question q = true)
    (he : e ∈ supported_cdps)
    (h1 : subIn e (lowerStr q) = true)
    (h2 : ∀ c ∈ supported_cdps, c ≠ e → subIn c (lowerStr q) = false)
    (h3 : ∀ c ∈ supported_cdps, c ≠ e → infer_patterns c (lowerStr q) = false) :
    select_comparison_cdps (lowerStr q) =
      e :: (supported_cdps.filter fun c => !(c == e)).take 1 ∧
    (select_comparison_cdps (lowerStr q)).length = 2 := by
  simp only [supported_cdps, List.mem_cons, List.not_mem_nil, or_false] at he
  rcases he with rfl | rfl | rfl | rfl
  · have hm := h2 (str "mparticle") (by simp [supported_cdps]) (by decide)
    have hl := h2 (str "lytics") (by simp [supported_cdps]) (by decide)
    have hz := h2 (str "zeotap") (by simp [supported_cdps]) (by decide)
    have him := h3 (str "mparticle") (by simp [supported_cdps]) (by decide)
    have hil := h3 (str "lytics") (by simp [supported_cdps]) (by decide)
    have hiz := h3 (str "zeotap") (by simp [supported_cdps]) (by decide)
    simp [select_comparison_cdps, supported_cdps, h1, hm, hl, hz, him, hil, hiz]
    decide
  · have hs := h2 (str "segment") (by simp [supported_cdps]) (by decide)
    have hl := h2 (str "lytics") (by simp [supported_cdps]) (by decide)
    have hz := h2 (str "zeotap") (by simp [supported_cdps]) (by decide)
    have his := h3 (str "segment") (by simp [supported_cdps]) (by decide)
    have hil := h3 (str "lytics") (by simp [supported_cdps]) (by decide)
    have hiz := h3 (str "zeotap") (by simp [supported_cdps]) (by decide)
    simp [select_comparison_cdps, supported_cdps, h1, hs, hl, hz, his, hil, hiz]
    decide
  · have hs := h2 (str "segment") (by simp [supported_cdps]) (by decide)
    have hm := h2 (str "mparticle") (by simp [supported_cdps]) (by decide)
    have hz := h2 (str "zeotap") (by simp [supported_cdps]) (by decide)
    have his := h3 (str "segment") (by simp [supported_cdps]) (by decide)
    have him := h3 (str "mparticle") (by simp [supported_cdps]) (by decide)
    have hiz := h3 (str "zeotap") (by simp [supported_cdps]) (by decide)
    simp [select_comparison_cdps, supported_cdps, h1, hs, hm, hz, his, him, hiz]
    decide
  · have hs := h2 (str "segment") (by simp [supported_cdps]) (by decide)
    have hm := h2 (str "mparticle") (by simp [supported_cdps]) (by decide)
    have hl := h2 (str "lytics") (by simp [supported_cdps]) (by decide)
    have his := h3 (str "segment") (by simp [supported_cdps]) (by decide)
    have him := h3 (str "mparticle") (by simp [supported_cdps]) (by decide)
    have hil := h3 (str "lytics") (by simp [supported_cdps]) (by decide)
    simp [select_comparison_cdps, supported_cdps, h1, hs, hm, hl, his, him, hil]
    decide

/-- Witness for C8 at the concrete comparison question
"which is better lytics?" (hypotheses discharged by evaluation): the
selection pads with "segment", the first remaining supported entity. -/
theorem c8_comparison_two_entities_witness :
    is_comparison_question (str "which is better lytics?") = true ∧
    select_comparison_cdps (lowerStr (str "which is better lytics?")) =
      str "lytics" :: (supported_cdps.filter fun c => !(c == str "lytics")).take 1 ∧
    (select_comparison_cdps (lowerStr (str "which is better lytics?"))).length = 2 :=
  ⟨by decide,
    c8_comparison_two_entities (str "which is better lytics?") (str "lytics")
      (by decide) (by decide) (by decide) (by decide) (by decide)⟩

/-- C1 (amended): as long as the (effective) question is not routed to
the comparison branch, `answer_question` never propagates an exception:
it always returns a string, and any exception raised by the index during
the single-entity search is caught and converted into the fixed
"I'm having trouble processing that" apology message.  (In the
comparison branch the search calls are outside the `try`/`except`, see
the counterexample.) -/
theorem c1_single_path_catches (oracle : Str → Except PyErr (List SearchHit)) (q : Str)
    (hcomp : is_comparison_question (effective_question q) = false) :
    (answer_question oracle q).isOk = true ∧
    (∀ e : PyErr, is_cdp_related (effective_question q) = true →
      oracle (effective_question q) = .error e →
      answer_question oracle q = .ok apology_message) := by
  unfold answer_question answer_core
  by_cases hrel : is_cdp_related (effective_question q)
  · rw [hrel, hcomp]
    cases horacle : oracle (effective_question q) with
    | ok results =>
      constructor
      · by_cases hres : results.isEmpty <;> simp [hres, Except.isOk, Except.toBool]
      · intro e _ herr
        exact Except.noConfusion herr
    | error e =>
      constructor
      · simp [Except.isOk, Except.toBool]
      · intro e' _ herr
        rfl
  · rw [Bool.not_eq_true] at hrel
    rw [hrel]
    constructor
    · simp [Except.isOk, Except.toBool]
    · intro e hrel' _
      exact absurd hrel' (by simp)

/-- Counterexample for C1 as stated: on the comparison question
"compare segment and lytics", an exception raised by the index during
search is not caught — `answer_question` propagates it to the caller
instead of returning the apology message. -/
theorem c1_counterexample :
    is_comparison_question (str "compare segment and lytics") = true ∧
    answer_question oracle_fail (str "compare segment and lytics") =
      .error PyErr.searchFailure := by
  refine ⟨by decide, by decide⟩

/-- Witness for C1 (amended) at the concrete non-comparison question
"how do i track events in lytics" with an always-raising oracle
(hypothesis discharged by evaluation). -/
theorem c1_single_path_catches_witness :
    (answer_question oracle_fail (str "how do i track events in lytics")).isOk = true ∧
    (∀ e : PyErr,
      is_cdp_related (effective_question (str "how do i track events in lytics")) = true →
      oracle_fail (effective_question (str "how do i track events in lytics")) = .error e →
      answer_question oracle_fail (str "how do i track events in lytics") = .ok apology_message) :=
  c1_single_path_catches oracle_fail (str "how do i track events in lytics") (by decide)

/-- C10 (amended): for every question longer than 500 characters, all
classification and search is performed on the truncated text:
`answer_question q` equals the post-truncation pipeline `answer_core`
applied to `truncate_question q`, so the raw question beyond the kept
suffix never influences the answer.  This equals
`answer_question (truncate_question q)` whenever the truncated text is
itself at most 500 characters; when the truncation still exceeds 500
characters, `answer_question` applied to it truncates a second time and
the results can differ (see the counterexample). -/
theorem c10_truncation_pipeline (oracle : Str → Except PyErr (List SearchHit)) (q : Str)
    (h : 500 < q.length) :
    answer_question oracle q = answer_core oracle (truncate_question q) ∧
    ((truncate_question q).length ≤ 500 →
      answer_question oracle q = answer_question oracle (truncate_question q)) := by
  constructor
  · unfold answer_question effective_question
    rw [if_pos h]
  · intro h2
    unfold answer_question effective_question
    rw [if_pos h, if_neg (not_lt.2 h2)]

/-- Witness for C10 (amended) at a concrete 502-character question
(hypothesis discharged by evaluation). -/
theorem c10_truncation_pipeline_witness :
    500 < medium_question.length ∧
    ((truncate_question medium_question).length ≤ 500 ∧
      answer_question oracle_empty medium_question =
        answer_question oracle_empty (truncate_question medium_question)) :=
  ⟨by decide, by decide,
    (c10_truncation_pipeline oracle_empty medium_question (by decide)).2 (by decide)⟩

/-- Counterexample for C10 as stated: `long_question` is longer than 500
characters, but `answer_question` on it does not equal `answer_question`
on its truncation — the truncation is still over the limit, so the
second call truncates again, loses the "segment" mention, and returns
the refusal message instead of the no-results message. -/
theorem c10_counterexample :
    500 < long_question.length ∧
    500 < (truncate_question long_question).length ∧
    answer_question oracle_empty long_question = .ok no_results_message ∧
    answer_question oracle_empty (truncate_question long_question) = .ok refusal_message ∧
    answer_question oracle_empty long_question ≠
      answer_question oracle_empty (truncate_question long_question) := by
  have h1 : answer_question oracle_empty long_question = .ok no_results_message := by decide
  have h2 : answer_question oracle_empty (truncate_question long_question) =
      .ok refusal_message := by decide
  refine ⟨by decide, by decide, h1, h2, ?_⟩
  rw [h1, h2]
  intro h
  exact absurd (Except.ok.inj h) (by decide)

/-- C2 (amended): for every similarity vector and every `top_k ≥ 1`,
`search` returns at most `top_k` results and at most corpus-size many,
every returned result has score strictly greater than 0.1, and the
result sequence is sorted by non-increasing score; results below the
threshold are dropped, never padded (every returned score passes the
threshold).  For `top_k = 0` the claim fails, see the counterexample. -/
theorem c2_search_contract (sims : List ℚ) (top_k : Int) (hk : 1 ≤ top_k) :
    (search_rank sims top_k).length ≤ top_k.toNat ∧
    (search_rank sims top_k).length ≤ sims.length ∧
    (∀ p ∈ search_rank sims top_k, qv 1 10 < p.2) ∧
    List.Pairwise (fun a b : Nat × ℚ => b.2 ≤ a.2) (search_rank sims top_k) := by
  obtain ⟨hlek, hlen⟩ := search_rank_length_le sims top_k hk
  refine ⟨hlek, hlen, fun p hp => search_rank_scores hp, ?_⟩
  refine (search_rank_pairwise_lex sims top_k).imp ?_
  rintro a b (h | ⟨h, _⟩)
  · exact le_of_lt h
  · exact le_of_eq h

/-- Witness for C2 (amended) at the concrete similarity vector
`[1/2, 1/50, 3/5]` with `top_k = 2` (hypothesis discharged by
evaluation): the 1/50 score is filtered out, the other two are returned
in descending order. -/
theorem c2_search_contract_witness :
    (search_rank [qv 1 2, qv 1 50, qv 3 5] 2).length ≤ (2 : Int).toNat ∧
    (search_rank [qv 1 2, qv 1 50, qv 3 5] 2).length ≤ ([qv 1 2, qv 1 50, qv 3 5] : List ℚ).length ∧
    (∀ p ∈ search_rank [qv 1 2, qv 1 50, qv 3 5] 2, qv 1 10 < p.2) ∧
    List.Pairwise (fun a b : Nat × ℚ => b.2 ≤ a.2) (search_rank [qv 1 2, qv 1 50, qv 3 5] 2) :=
  c2_search_contract [qv 1 2, qv 1 50, qv 3 5] 2 (by decide)

/-- Counterexample for C2 as stated ("for every k"): with one document of
similarity 1 and `top_k = 0`, the Python slice `[-0:]` is the whole
array, so `search` returns one result although the claim allows at most
zero. -/
theorem c2_counterexample :
    search_rank [qv 1 1] 0 = [(0, qv 1 1)] ∧
    ¬ ((search_rank [qv 1 1] 0).length ≤ (0 : Int).toNat) := by
  refine ⟨by decide, by decide⟩

/-- C5 (amended): `search` output is sorted by strictly descending
(score, corpus index) in the lexicographic order in which equal-score
ties are broken by *descending* corpus index: the stable ascending
argsort leaves equal scores in insertion order, and the final `[::-1]`
reversal flips them. -/
theorem c5_ties_descending_index (sims : List ℚ) (top_k : Int) :
    List.Pairwise (fun a b : Nat × ℚ => b.2 < a.2 ∨ (b.2 = a.2 ∧ b.1 < a.1))
      (search_rank sims top_k) :=
  search_rank_pairwise_lex sims top_k

/-- Counterexample for C5 as stated: with two documents of equal
similarity 1/2, `search` returns document 1 before document 0 —
descending corpus index, not the ascending insertion order the claim
demands. -/
theorem c5_counterexample :
    search_rank [qv 1 2, qv 1 2] 2 = [(1, qv 1 2), (0, qv 1 2)] ∧
    ¬ List.Pairwise (fun a b : Nat × ℚ => b.2 < a.2 ∨ (a.2 = b.2 ∧ a.1 < b.1))
      (search_rank [qv 1 2, qv 1 2] 2) := by
  refine ⟨by decide, by decide⟩

/-- C4: calling `search` on a freshly constructed indexer, before
`load_documents` has run, always fails — but with an `AttributeError`
from evaluating `None.shape`, not with the deliberately raised
"Documents not loaded" `ValueError` that the guard's own message (and
the claim) intend: `self.tfidf_matrix` is `None` before the build, so
the guard expression itself raises first. -/
theorem c4_search_before_build (sims : List ℚ) (top_k : Int) :
    indexer_search freshIndexer sims top_k =
      .error (.attributeError (str "'NoneType' object has no attribute 'shape'")) ∧
    ∀ msg : Str, indexer_search freshIndexer sims top_k ≠ .error (.valueError msg) := by
  refine ⟨rfl, fun msg h => ?_⟩
  rw [(rfl : indexer_search freshIndexer sims top_k =
    .error (.attributeError (str "'NoneType' object has no attribute 'shape'")))] at h
  exact PyErr.noConfusion (Except.error.inj h)
